import Mathlib

/-!
Shallow embedding of `src/app.py` (arithmetic / geometric sequence
calculator).  Python floats are modelled as exact rationals (`ℚ`); Python
ints as `ℤ`; Python lists as `List`.  The number-to-text conversion
`str(x)` of the host language is left as an explicit function parameter
`numStr : ℚ → String`, since the spec declares it an implementation
detail of the numeric type.  `range(n)` of Python is empty for `n ≤ 0`,
which the embedding renders as `List.range n.toNat`.
-/

/-- Sequence kinds offered by the radio selector in `main`. -/
inductive Kind where
  | arithmetic
  | geometric
deriving DecidableEq, Inhabited

/-- Embedding of `calculate_arithmetic_sequence` (src/app.py lines 3-19):
for `i in range(num_terms)`, `term = first_term + (i * common_difference)`. -/
def calculate_arithmetic_sequence (first_term common_difference : ℚ)
    (num_terms : ℤ) : List ℚ :=
  (List.range num_terms.toNat).map
    (fun i : ℕ => first_term + ((i : ℚ) * common_difference))

/-- Embedding of `calculate_geometric_sequence` (src/app.py lines 21-37):
for `i in range(num_terms)`, `term = first_term * (common_ratio ** i)`.
Python evaluates `0 ** 0` to `1`, exactly as `ℚ` does. -/
def calculate_geometric_sequence (first_term common_ratio : ℚ)
    (num_terms : ℤ) : List ℚ :=
  (List.range num_terms.toNat).map
    (fun i => first_term * (common_ratio ^ i))

/-- Embedding of `format_arithmetic_display` (src/app.py lines 39-63).
Returns `(sequence_str, formula)`; the formula literally begins with the
Unicode subscript `aₙ`, as in the source. -/
def format_arithmetic_display (numStr : ℚ → String) (sequence : List ℚ)
    (first_term common_difference : ℚ) : String × String :=
  let sequence_str := String.intercalate (", ") (sequence.map numStr)
  let formula :=
    ("aₙ = ") ++ numStr first_term ++
      (if common_difference > 0 then
        (" + ") ++ numStr common_difference ++ ("(n-1)")
      else if common_difference < 0 then
        (" - ") ++ numStr (|common_difference|) ++ ("(n-1)")
      else (" + 0(n-1)"))
  (sequence_str, formula)

/-- Embedding of `format_geometric_display` (src/app.py lines 65-86). -/
def format_geometric_display (numStr : ℚ → String) (sequence : List ℚ)
    (first_term common_ratio : ℚ) : String × String :=
  let sequence_str := String.intercalate (", ") (sequence.map numStr)
  let formula :=
    if common_ratio = 1 then ("aₙ = ") ++ numStr first_term
    else ("aₙ = ") ++ numStr first_term ++ (" × ") ++ numStr common_ratio ++
      ("^(n-1)")
  (sequence_str, formula)

/-- Round a rational to the nearest integer, ties to even, modelling the
rounding used by the host's fixed-point formatting. -/
def roundHalfEven (q : ℚ) : ℤ :=
  let f : ℤ := ⌊q⌋
  let r : ℚ := q - (f : ℚ)
  if r < 1 / 2 then f
  else if r > 1 / 2 then f + 1
  else if f % 2 = 0 then f else f + 1

/-- Two-digit decimal field: the textual residue `f < 100`, left-padded
with a zero when `f < 10`. -/
def twoDigits (f : ℕ) : String :=
  (if f < 10 then ("0") else ("")) ++ Nat.repr f

/-- Embedding of the fixed-point rendering `f"{x:.2f}"` used for the sum
(src/app.py line 221), over the exact-rational model of floats: the value
is scaled by 100, rounded half-to-even, and printed with exactly two
digits after the decimal point. -/
def format2f (q : ℚ) : String :=
  let n : ℤ := roundHalfEven (q * 100)
  (if n < 0 then ("-") else ("")) ++
    Nat.repr (n.natAbs / 100) ++ (".") ++ twoDigits (n.natAbs % 100)

/-- Embedding of the sum computation of `main` (src/app.py lines 211-219):
arithmetic uses `(num_terms / 2) * (first_term + sequence[-1])` (true
division), geometric uses `first_term * num_terms` when the ratio is `1`
and `first_term * (ratio ** num_terms - 1) / (ratio - 1)` otherwise.
`sequence[-1]` is modelled by `getLastD`; `main` only reaches this code
with a nonempty sequence. -/
def sequence_sum_of (sequence_type : Kind) (first_term second_param : ℚ)
    (num_terms : ℤ) (sequence : List ℚ) : ℚ :=
  match sequence_type with
  | .arithmetic => ((num_terms : ℚ) / 2) * (first_term + sequence.getLastD 0)
  | .geometric =>
    if second_param = 1 then first_term * (num_terms : ℚ)
    else first_term * (second_param ^ num_terms.toNat - 1) / (second_param - 1)

/-- Embedding of the step-by-step block of `main` (src/app.py lines
224-237).  The whole block is guarded by `if num_terms >= 3:`; inside it,
`for i in range(min(3, num_terms))` emits `a₁ = {first_term}` for `i = 0`
and a plain-text derivation `a{i+1} = ...` for `i > 0`. -/
def step_by_step (numStr : ℚ → String) (sequence_type : Kind)
    (first_term second_param : ℚ) (num_terms : ℤ) (sequence : List ℚ) :
    List String :=
  if num_terms ≥ 3 then
    (List.range (min 3 num_terms).toNat).map (fun i =>
      let term_value := sequence.getD i 0
      if i = 0 then ("a₁ = ") ++ numStr first_term
      else
        match sequence_type with
        | .arithmetic =>
          ("a") ++ Nat.repr (i + 1) ++ (" = ") ++ numStr first_term ++
            (" + ") ++ numStr second_param ++ (" × ") ++ Nat.repr i ++
            (" = ") ++ numStr term_value
        | .geometric =>
          ("a") ++ Nat.repr (i + 1) ++ (" = ") ++ numStr first_term ++
            (" × ") ++ numStr second_param ++ ("^") ++ Nat.repr i ++
            (" = ") ++ numStr term_value)
  else []

/-- Everything `main` derives and displays for one valid request. -/
structure MainOutput where
  sequence : List ℚ
  sequence_str : String
  formula : String
  param_name : String
  last_term : ℚ
  sequence_sum : ℚ
  sum_str : String
  step_lines : List String
deriving DecidableEq, Inhabited

/-- Kind dispatch of `main` (src/app.py lines 167-172): which generator
is called for the selected sequence type. -/
def mainSequence (sequence_type : Kind) (first_term second_param : ℚ)
    (num_terms : ℤ) : List ℚ :=
  match sequence_type with
  | .arithmetic =>
    calculate_arithmetic_sequence first_term second_param num_terms
  | .geometric =>
    calculate_geometric_sequence first_term second_param num_terms

/-- Kind dispatch of `main` (src/app.py lines 167-174): which formatter
is called for the selected sequence type. -/
def mainDisplay (numStr : ℚ → String) (sequence_type : Kind)
    (sequence : List ℚ) (first_term second_param : ℚ) : String × String :=
  match sequence_type with
  | .arithmetic =>
    format_arithmetic_display numStr sequence first_term second_param
  | .geometric =>
    format_geometric_display numStr sequence first_term second_param

/-- Metric label chosen in `main` (src/app.py lines 170 and 174). -/
def param_name_of (sequence_type : Kind) : String :=
  match sequence_type with
  | .arithmetic => ("Common Difference")
  | .geometric => ("Common Ratio")

/-- Embedding of the calculate branch of `main` (src/app.py lines
151-237): validation happens first and returns an error message without
touching the generators; otherwise the sequence, display strings, sum and
step-by-step lines are produced. -/
def runCalculation (numStr : ℚ → String) (sequence_type : Kind)
    (first_term second_param : ℚ) (num_terms : ℤ) :
    Except String MainOutput :=
  if num_terms ≤ 0 then
    .error ("Number of terms must be a positive integer.")
  else if num_terms > 1000 then
    .error ("Number of terms cannot exceed 1000 for performance reasons.")
  else if sequence_type = Kind.geometric ∧ second_param = 0 then
    .error ("Common ratio cannot be zero for geometric sequences.")
  else
    let sequence := mainSequence sequence_type first_term second_param num_terms
    let fmt := mainDisplay numStr sequence_type sequence first_term second_param
    let sequence_sum :=
      sequence_sum_of sequence_type first_term second_param num_terms sequence
    .ok
      { sequence := sequence
        sequence_str := fmt.1
        formula := fmt.2
        param_name := param_name_of sequence_type
        last_term := sequence.getLastD 0
        sequence_sum := sequence_sum
        sum_str := format2f sequence_sum
        step_lines :=
          step_by_step numStr sequence_type first_term second_param
            num_terms sequence }

/-- Projection of the success payload, used to state theorems about valid
requests without an existential. -/
def okOutput (e : Except String MainOutput) : MainOutput :=
  match e with
  | .ok o => o
  | .error _ => default

/-- Concrete numeral-to-text function used by witnesses: the numerator of
the rational (all witness inputs are integral, where Python would append
a trailing .0 that the spec leaves implementation-defined). -/
def numStr0 (q : ℚ) : String := Int.repr q.num

example : calculate_arithmetic_sequence 1 1 4 = [1, 2, 3, 4] := by
  show (List.range 4).map (fun i : ℕ => (1:ℚ) + ((i:ℚ) * 1)) = [1, 2, 3, 4]
  norm_num [List.range_succ]
example : calculate_geometric_sequence 2 2 5 = [2, 4, 8, 16, 32] := by
  show (List.range 5).map (fun i => (2:ℚ) * ((2:ℚ) ^ i)) = [2, 4, 8, 16, 32]
  norm_num [List.range_succ]
example : calculate_geometric_sequence 1 0 3 = [1, 0, 0] := by
  show (List.range 3).map (fun i => (1:ℚ) * ((0:ℚ) ^ i)) = [1, 0, 0]
  norm_num [List.range_succ]
example : calculate_arithmetic_sequence 1 1 (-2) = [] := by rfl

example : step_by_step numStr0 Kind.arithmetic 1 1 1 [1] = [] := by rfl
example : format2f 55 = "55.00" := by
  norm_num [format2f, roundHalfEven, twoDigits]
  decide

lemma arith_length (a d : ℚ) (n : ℤ) :
    (calculate_arithmetic_sequence a d n).length = n.toNat := by
  simp only [calculate_arithmetic_sequence, List.length_map, List.length_range]

lemma geo_length (a r : ℚ) (n : ℤ) :
    (calculate_geometric_sequence a r n).length = n.toNat := by
  simp [calculate_geometric_sequence]

lemma arith_getD (a d : ℚ) (n : ℤ) (i : ℕ) (hi : i < n.toNat) :
    (calculate_arithmetic_sequence a d n).getD i 0 = a + i * d := by
  simp only [calculate_arithmetic_sequence, List.getD_eq_getElem?_getD,
    List.getElem?_map, List.getElem?_range, hi, if_true]
  rfl

lemma geo_getD (a r : ℚ) (n : ℤ) (i : ℕ) (hi : i < n.toNat) :
    (calculate_geometric_sequence a r n).getD i 0 = a * r ^ i := by
  simp [calculate_geometric_sequence, List.getD_eq_getElem?_getD,
    List.getElem?_map, List.getElem?_range, hi]

lemma arith_getLastD (a d : ℚ) (n : ℤ) (h : 1 ≤ n) :
    (calculate_arithmetic_sequence a d n).getLastD 0 = a + ((n : ℚ) - 1) * d := by
  have hn : n.toNat - 1 < n.toNat := by omega
  have hc : ((n.toNat - 1 : ℕ) : ℚ) = (n : ℚ) - 1 := by
    have h1 : ((n.toNat : ℕ) : ℤ) = n := Int.toNat_of_nonneg (by omega)
    have h2 : (1 : ℕ) ≤ n.toNat := by omega
    rw [Nat.cast_sub h2, Nat.cast_one]
    congr 1
    exact_mod_cast h1
  rw [List.getLastD_eq_getLast?, List.getLast?_eq_getElem?, arith_length]
  simp only [calculate_arithmetic_sequence, List.getElem?_map,
    List.getElem?_range, hn, if_true, Option.map_some', Option.getD_some]
  rw [hc]

/-- C1: for every valid arithmetic request (integer termCount with
1 ≤ termCount ≤ 1000), `calculate_arithmetic_sequence` returns a list of
exactly termCount terms with term(i) = firstTerm + i·step for every
i ∈ [0, termCount); termCount = 1 yields exactly `[firstTerm]`. -/
theorem C1_arithmetic_generator (a d : ℚ) (n : ℤ)
    (h1 : 1 ≤ n) (h2 : n ≤ 1000) :
    (calculate_arithmetic_sequence a d n).length = n.toNat ∧
    (∀ i : ℕ, i < n.toNat →
      (calculate_arithmetic_sequence a d n).getD i 0 = a + i * d) ∧
    (n = 1 → calculate_arithmetic_sequence a d n = [a]) := by
  refine ⟨arith_length a d n, fun i hi => arith_getD a d n i hi, fun hn => ?_⟩
  subst hn
  show List.map (fun i : ℕ => a + ((i : ℚ) * d)) [0] = [a]
  norm_num

theorem C1_arithmetic_generator_witness :
    (calculate_arithmetic_sequence 2 3 4).getD 2 0 = 2 + ((2 : ℕ) : ℚ) * 3 :=
  (C1_arithmetic_generator 2 3 4 (by decide) (by decide)).2.1 2 (by decide)

/-- C2: for every valid geometric request (integer termCount with
1 ≤ termCount ≤ 1000 and step ≠ 0), `calculate_geometric_sequence`
returns a list of exactly termCount terms with term(i) = firstTerm·stepⁱ
for every i ∈ [0, termCount). -/
theorem C2_geometric_generator (a r : ℚ) (n : ℤ)
    (h1 : 1 ≤ n) (h2 : n ≤ 1000) (h3 : r ≠ 0) :
    (calculate_geometric_sequence a r n).length = n.toNat ∧
    (∀ i : ℕ, i < n.toNat →
      (calculate_geometric_sequence a r n).getD i 0 = a * r ^ i) :=
  ⟨geo_length a r n, fun i hi => geo_getD a r n i hi⟩

theorem C2_geometric_generator_witness :
    (calculate_geometric_sequence 2 2 5).getD 3 0 = 2 * 2 ^ (3 : ℕ) :=
  (C2_geometric_generator 2 2 5 (by decide) (by decide) (by norm_num)).2 3
    (by decide)

/-- C9: both generators are deterministic and stateless: two calls with
identical arguments yield identical output lists.  In the embedding the
generators are pure functions of their arguments, so equal inputs give
equal outputs. -/
theorem C9_deterministic (a p : ℚ) (n : ℤ) (a' p' : ℚ) (n' : ℤ)
    (ha : a = a') (hp : p = p') (hn : n = n') :
    calculate_arithmetic_sequence a p n =
      calculate_arithmetic_sequence a' p' n' ∧
    calculate_geometric_sequence a p n =
      calculate_geometric_sequence a' p' n' := by
  subst ha; subst hp; subst hn
  exact ⟨rfl, rfl⟩

theorem C9_deterministic_witness :
    calculate_arithmetic_sequence 1 2 3 = calculate_arithmetic_sequence 1 2 3 ∧
    calculate_geometric_sequence 1 2 3 = calculate_geometric_sequence 1 2 3 :=
  C9_deterministic 1 2 3 1 2 3 rfl rfl rfl

/-- C10: both generators are total over all integer num_terms: for every
num_terms ≤ 0 each returns the empty list (Python `range(n)` is empty for
n ≤ 0), since validation lives only in the caller. -/
theorem C10_generators_total (a p : ℚ) (n : ℤ) (h : n ≤ 0) :
    calculate_arithmetic_sequence a p n = [] ∧
    calculate_geometric_sequence a p n = [] := by
  constructor <;>
    simp [calculate_arithmetic_sequence, calculate_geometric_sequence,
      Int.toNat_of_nonpos h]

theorem C10_generators_total_witness :
    calculate_arithmetic_sequence 1 2 (-5) = [] ∧
    calculate_geometric_sequence 1 2 (-5) = [] :=
  C10_generators_total 1 2 (-5) (by decide)

lemma runCalculation_valid (numStr : ℚ → String) (k : Kind) (a p : ℚ)
    (n : ℤ) (h1 : 1 ≤ n) (h2 : n ≤ 1000)
    (h3 : ¬(k = Kind.geometric ∧ p = 0)) :
    runCalculation numStr k a p n = .ok
      { sequence := mainSequence k a p n
        sequence_str := (mainDisplay numStr k (mainSequence k a p n) a p).1
        formula := (mainDisplay numStr k (mainSequence k a p n) a p).2
        param_name := param_name_of k
        last_term := (mainSequence k a p n).getLastD 0
        sequence_sum := sequence_sum_of k a p n (mainSequence k a p n)
        sum_str := format2f (sequence_sum_of k a p n (mainSequence k a p n))
        step_lines := step_by_step numStr k a p n (mainSequence k a p n) } := by
  unfold runCalculation
  rw [if_neg (by omega), if_neg (by omega), if_neg h3]

lemma okOutput_valid (numStr : ℚ → String) (k : Kind) (a p : ℚ)
    (n : ℤ) (h1 : 1 ≤ n) (h2 : n ≤ 1000)
    (h3 : ¬(k = Kind.geometric ∧ p = 0)) :
    okOutput (runCalculation numStr k a p n) =
      { sequence := mainSequence k a p n
        sequence_str := (mainDisplay numStr k (mainSequence k a p n) a p).1
        formula := (mainDisplay numStr k (mainSequence k a p n) a p).2
        param_name := param_name_of k
        last_term := (mainSequence k a p n).getLastD 0
        sequence_sum := sequence_sum_of k a p n (mainSequence k a p n)
        sum_str := format2f (sequence_sum_of k a p n (mainSequence k a p n))
        step_lines := step_by_step numStr k a p n (mainSequence k a p n) } := by
  rw [runCalculation_valid numStr k a p n h1 h2 h3]
  rfl

/-- C7 counterexample: the claim says the geometric generator with
step = 0 produces a constant-zero sequence for every termCount ≥ 1, but
for firstTerm = 1, termCount = 1 the result is `[1]` (the first factor is
`0 ** 0 = 1`), and 1 ≠ 0. -/
theorem C7_counterexample :
    calculate_geometric_sequence 1 0 1 = [1] ∧ (1 : ℚ) ≠ 0 := by
  constructor
  · show List.map (fun i => (1 : ℚ) * ((0 : ℚ) ^ i)) [0] = [1]
    norm_num
  · norm_num

/-- C7 amended: with step = 0 the geometric generator performs no
validation and silently returns a sequence of the requested length whose
term 0 is firstTerm (because `0 ** 0 = 1`) and whose terms at every index
i ≥ 1 are 0. -/
theorem C7_step_zero (a : ℚ) (n : ℤ) (h : 1 ≤ n) :
    (calculate_geometric_sequence a 0 n).length = n.toNat ∧
    (calculate_geometric_sequence a 0 n).getD 0 0 = a ∧
    (∀ i : ℕ, 1 ≤ i → i < n.toNat →
      (calculate_geometric_sequence a 0 n).getD i 0 = 0) := by
  refine ⟨geo_length a 0 n, ?_, fun i hi1 hi2 => ?_⟩
  · rw [geo_getD a 0 n 0 (by omega)]
    norm_num
  · rw [geo_getD a 0 n i hi2]
    rw [zero_pow (by omega : i ≠ 0), mul_zero]

theorem C7_step_zero_witness :
    (calculate_geometric_sequence 5 0 3).getD 0 0 = 5 ∧
    (calculate_geometric_sequence 5 0 3).getD 1 0 = 0 :=
  ⟨(C7_step_zero 5 3 (by decide)).2.1,
   (C7_step_zero 5 3 (by decide)).2.2 1 (by decide) (by decide)⟩

/-- C8: the geometric generator with step = 1 produces exactly the same
(constant) sequence as the arithmetic generator with step = 0, and for
every valid request the geometric sum branch firstTerm·termCount agrees
both with the arithmetic sum formula termCount/2·(firstTerm + lastTerm)
on that sequence and with what the arithmetic path displays: no
behavioral divergence. -/
theorem C8_constant_case_agreement (numStr : ℚ → String) (a : ℚ) (n : ℤ)
    (h1 : 1 ≤ n) (h2 : n ≤ 1000) :
    calculate_geometric_sequence a 1 n = calculate_arithmetic_sequence a 0 n ∧
    (∀ i : ℕ, i < n.toNat →
      (calculate_geometric_sequence a 1 n).getD i 0 = a) ∧
    (okOutput (runCalculation numStr Kind.geometric a 1 n)).sequence_sum =
      a * (n : ℚ) ∧
    (okOutput (runCalculation numStr Kind.geometric a 1 n)).sequence_sum =
      ((n : ℚ) / 2) *
        (a + (calculate_arithmetic_sequence a 0 n).getLastD 0) ∧
    (okOutput (runCalculation numStr Kind.geometric a 1 n)).sequence_sum =
      (okOutput (runCalculation numStr Kind.arithmetic a 0 n)).sequence_sum := by
  have hseq : calculate_geometric_sequence a 1 n =
      calculate_arithmetic_sequence a 0 n := by
    unfold calculate_geometric_sequence calculate_arithmetic_sequence
    refine List.map_congr_left (fun i _ => ?_)
    norm_num
  have hsumG :
      (okOutput (runCalculation numStr Kind.geometric a 1 n)).sequence_sum =
        a * (n : ℚ) := by
    rw [okOutput_valid numStr Kind.geometric a 1 n h1 h2 (by norm_num)]
    simp [sequence_sum_of]
  have hlast : (calculate_arithmetic_sequence a 0 n).getLastD 0 = a := by
    rw [arith_getLastD a 0 n h1]
    ring
  have hsumA :
      (okOutput (runCalculation numStr Kind.arithmetic a 0 n)).sequence_sum =
        ((n : ℚ) / 2) *
          (a + (calculate_arithmetic_sequence a 0 n).getLastD 0) := by
    rw [okOutput_valid numStr Kind.arithmetic a 0 n h1 h2 (by simp)]
    rfl
  refine ⟨hseq, fun i hi => ?_, hsumG, ?_, ?_⟩
  · rw [geo_getD a 1 n i hi]
    norm_num
  · rw [hsumG, hlast]
    ring
  · rw [hsumG, hsumA, hlast]
    ring

theorem C8_constant_case_agreement_witness :
    (okOutput (runCalculation numStr0 Kind.geometric 3 1 5)).sequence_sum =
      3 * ((5 : ℤ) : ℚ) :=
  (C8_constant_case_agreement numStr0 3 5 (by decide) (by decide)).2.2.1

/-- C4: validation happens before generation and aborts without producing
any sequence: termCount ≤ 0, termCount > 1000, and geometric step = 0 are
each rejected with their message, and the result is an error carrying no
sequence. -/
theorem C4_validation_rejects (numStr : ℚ → String) (k : Kind)
    (a p : ℚ) (n : ℤ) :
    (n ≤ 0 → runCalculation numStr k a p n =
      .error ("Number of terms must be a positive integer.")) ∧
    (n > 1000 → runCalculation numStr k a p n =
      .error ("Number of terms cannot exceed 1000 for performance reasons.")) ∧
    (0 < n → n ≤ 1000 → k = Kind.geometric → p = 0 →
      runCalculation numStr k a p n =
        .error ("Common ratio cannot be zero for geometric sequences.")) := by
  refine ⟨fun h => ?_, fun h => ?_, fun hn1 hn2 hk hp => ?_⟩
  · unfold runCalculation
    rw [if_pos h]
  · unfold runCalculation
    rw [if_neg (by omega), if_pos h]
  · unfold runCalculation
    rw [if_neg (by omega), if_neg (by omega), if_pos ⟨hk, hp⟩]

theorem C4_validation_rejects_witness :
    runCalculation numStr0 Kind.arithmetic 1 1 0 =
      .error ("Number of terms must be a positive integer.") ∧
    runCalculation numStr0 Kind.arithmetic 1 1 1001 =
      .error ("Number of terms cannot exceed 1000 for performance reasons.") ∧
    runCalculation numStr0 Kind.geometric 1 0 5 =
      .error ("Common ratio cannot be zero for geometric sequences.") :=
  ⟨(C4_validation_rejects numStr0 Kind.arithmetic 1 1 0).1 (by decide),
   (C4_validation_rejects numStr0 Kind.arithmetic 1 1 1001).2.1 (by decide),
   (C4_validation_rejects numStr0 Kind.geometric 1 0 5).2.2 (by decide)
     (by decide) rfl rfl⟩

lemma numStr0_one : numStr0 1 = ("1") := by
  rw [numStr0, Rat.num_one]
  rfl

/-- C5 counterexample: the formatter's formulaText begins with the
literal `aₙ` (Unicode subscript), not `a_n`; for an arithmetic request
with firstTerm = 1, step = 1 the formula is `aₙ = 1 + 1(n-1)`, which
differs from the claimed shape `a_n = 1 + 1(n-1)` (the `a_n` form only
appears after `main` rewrites the formula for LaTeX display). -/
theorem C5_counterexample :
    (format_arithmetic_display numStr0 [] 1 1).2 = ("aₙ = 1 + 1(n-1)") ∧
    (format_arithmetic_display numStr0 [] 1 1).2 ≠ ("a_n = 1 + 1(n-1)") := by
  have h : (format_arithmetic_display numStr0 [] 1 1).2 =
      ("aₙ = 1 + 1(n-1)") := by
    simp only [format_arithmetic_display]
    rw [if_pos (by norm_num : (1 : ℚ) > 0), numStr0_one]
    decide
  exact ⟨h, by rw [h]; decide⟩

/-- C5 amended: the formatter's formulaText takes exactly one of the five
shapes selected by sequence kind and step, each opening with the literal
`aₙ` of the source (rendered as `a_n` only in the LaTeX display step):
arithmetic step > 0 `aₙ = a + d(n-1)`, step < 0 `aₙ = a - |d|(n-1)`,
step = 0 `aₙ = a + 0(n-1)`; geometric step = 1 `aₙ = a`, step ≠ 1
`aₙ = a × r^(n-1)`. -/
theorem C5_formula_shapes (numStr : ℚ → String) (seqA seqG : List ℚ)
    (a d r : ℚ) :
    (0 < d → (format_arithmetic_display numStr seqA a d).2 =
      ("aₙ = ") ++ numStr a ++ (" + ") ++ numStr d ++ ("(n-1)")) ∧
    (d < 0 → (format_arithmetic_display numStr seqA a d).2 =
      ("aₙ = ") ++ numStr a ++ (" - ") ++ numStr (|d|) ++ ("(n-1)")) ∧
    (d = 0 → (format_arithmetic_display numStr seqA a d).2 =
      ("aₙ = ") ++ numStr a ++ (" + 0(n-1)")) ∧
    (r = 1 → (format_geometric_display numStr seqG a r).2 =
      ("aₙ = ") ++ numStr a) ∧
    (r ≠ 1 → (format_geometric_display numStr seqG a r).2 =
      ("aₙ = ") ++ numStr a ++ (" × ") ++ numStr r ++ ("^(n-1)")) := by
  refine ⟨fun h => ?_, fun h => ?_, fun h => ?_, fun h => ?_, fun h => ?_⟩
  · simp only [format_arithmetic_display]
    rw [if_pos (by linarith : d > 0)]
    simp [String.append_assoc]
  · simp only [format_arithmetic_display]
    rw [if_neg (by linarith : ¬d > 0), if_pos h]
    simp [String.append_assoc]
  · simp only [format_arithmetic_display]
    rw [if_neg (by simp [h]), if_neg (by simp [h])]
  · simp only [format_geometric_display]
    rw [if_pos h]
  · simp only [format_geometric_display]
    rw [if_neg h]

theorem C5_formula_shapes_witness :
    (format_geometric_display numStr0 [] 3 1).2 = ("aₙ = ") ++ numStr0 3 :=
  (C5_formula_shapes numStr0 [] [] 3 1 1).2.2.2.1 rfl

lemma step_lines_short (numStr : ℚ → String) (k : Kind) (a p : ℚ)
    (n : ℤ) (seq : List ℚ) (h : n < 3) :
    step_by_step numStr k a p n seq = [] := by
  unfold step_by_step
  rw [if_neg (by omega)]

lemma step_lines_arith (numStr : ℚ → String) (a p : ℚ) (n : ℤ)
    (h : 3 ≤ n) :
    step_by_step numStr Kind.arithmetic a p n
        (calculate_arithmetic_sequence a p n) =
      [("a₁ = ") ++ numStr a,
       ("a") ++ ("2") ++ (" = ") ++ numStr a ++ (" + ") ++ numStr p ++
         (" × ") ++ ("1") ++ (" = ") ++ numStr (a + 1 * p),
       ("a") ++ ("3") ++ (" = ") ++ numStr a ++ (" + ") ++ numStr p ++
         (" × ") ++ ("2") ++ (" = ") ++ numStr (a + 2 * p)] := by
  have ht1 : (calculate_arithmetic_sequence a p n).getD 1 0 = a + 1 * p := by
    rw [arith_getD a p n 1 (by omega)]
    norm_num
  have ht2 : (calculate_arithmetic_sequence a p n).getD 2 0 = a + 2 * p := by
    rw [arith_getD a p n 2 (by omega)]
    norm_num
  have ht1' : ((calculate_arithmetic_sequence a p n)[1]?).getD 0 = a + 1 * p := by
    rw [← List.getD_eq_getElem?_getD]
    exact ht1
  have ht2' : ((calculate_arithmetic_sequence a p n)[2]?).getD 0 = a + 2 * p := by
    rw [← List.getD_eq_getElem?_getD]
    exact ht2
  unfold step_by_step
  rw [if_pos (by omega : n ≥ 3)]
  rw [show (min 3 n).toNat = 3 by omega]
  rw [show List.range 3 = [0, 1, 2] from rfl]
  simp only [List.map_cons, List.map_nil]
  simp [ht1', ht2', show Nat.repr 1 = ("1") from rfl,
    show Nat.repr 2 = ("2") from rfl, show Nat.repr 3 = ("3") from rfl]

lemma step_lines_geo (numStr : ℚ → String) (a p : ℚ) (n : ℤ)
    (h : 3 ≤ n) :
    step_by_step numStr Kind.geometric a p n
        (calculate_geometric_sequence a p n) =
      [("a₁ = ") ++ numStr a,
       ("a") ++ ("2") ++ (" = ") ++ numStr a ++ (" × ") ++ numStr p ++
         ("^") ++ ("1") ++ (" = ") ++ numStr (a * p ^ 1),
       ("a") ++ ("3") ++ (" = ") ++ numStr a ++ (" × ") ++ numStr p ++
         ("^") ++ ("2") ++ (" = ") ++ numStr (a * p ^ 2)] := by
  have ht1 : (calculate_geometric_sequence a p n).getD 1 0 = a * p ^ 1 :=
    geo_getD a p n 1 (by omega)
  have ht2 : (calculate_geometric_sequence a p n).getD 2 0 = a * p ^ 2 :=
    geo_getD a p n 2 (by omega)
  have ht1' : ((calculate_geometric_sequence a p n)[1]?).getD 0 = a * p ^ 1 := by
    rw [← List.getD_eq_getElem?_getD]
    exact ht1
  have ht2' : ((calculate_geometric_sequence a p n)[2]?).getD 0 = a * p ^ 2 := by
    rw [← List.getD_eq_getElem?_getD]
    exact ht2
  unfold step_by_step
  rw [if_pos (by omega : n ≥ 3)]
  rw [show (min 3 n).toNat = 3 by omega]
  rw [show List.range 3 = [0, 1, 2] from rfl]
  simp only [List.map_cons, List.map_nil]
  simp [ht1', ht2', show Nat.repr 1 = ("1") from rfl,
    show Nat.repr 2 = ("2") from rfl, show Nat.repr 3 = ("3") from rfl]

/-- C6 counterexample: the step-by-step section of `main` runs only when
num_terms ≥ 3; a valid request with termCount = 1 produces no explanation
line (the claim says it produces one), and where lines exist they read
`a2 = ...` (plain text), not the claimed shape `a_2 = ...`. -/
theorem C6_counterexample :
    step_by_step numStr0 Kind.arithmetic 1 1 1
      (calculate_arithmetic_sequence 1 1 1) = [] ∧
    (step_by_step numStr0 Kind.arithmetic 1 1 3
        (calculate_arithmetic_sequence 1 1 3)).getD 1 ("") =
      ("a2 = 1 + 1 × 1 = 2") ∧
    ("a2 = 1 + 1 × 1 = 2") ≠ ("a_2 = 1 + 1 × 1 = 2") := by
  refine ⟨step_lines_short numStr0 Kind.arithmetic 1 1 1 _ (by decide),
    ?_, by decide⟩
  rw [step_lines_arith numStr0 1 1 3 (by decide)]
  have e : (1 + 1 * 1 : ℚ) = 2 := by norm_num
  show ("a") ++ ("2") ++ (" = ") ++ numStr0 1 ++ (" + ") ++ numStr0 1 ++
      (" × ") ++ ("1") ++ (" = ") ++ numStr0 (1 + 1 * 1) =
    ("a2 = 1 + 1 × 1 = 2")
  rw [numStr0_one, e]
  rw [show numStr0 2 = ("2") by rw [numStr0, Rat.num_ofNat]; rfl]
  decide

/-- C6 amended: explanation lines are produced only when termCount ≥ 3,
in which case exactly three lines appear, `a₁ = {firstTerm}` for i = 0
and for i > 0 the plain-text forms `a{i+1} = {firstTerm} + {step} × {i} =
{term(i)}` (arithmetic) and `a{i+1} = {firstTerm} × {step}^{i} =
{term(i)}` (geometric); termCount = 1 or 2 yields no explanation lines. -/
theorem C6_step_explanations (numStr : ℚ → String) (a p : ℚ) (n : ℤ) :
    (3 ≤ n →
      step_by_step numStr Kind.arithmetic a p n
          (calculate_arithmetic_sequence a p n) =
        [("a₁ = ") ++ numStr a,
         ("a") ++ ("2") ++ (" = ") ++ numStr a ++ (" + ") ++ numStr p ++
           (" × ") ++ ("1") ++ (" = ") ++ numStr (a + 1 * p),
         ("a") ++ ("3") ++ (" = ") ++ numStr a ++ (" + ") ++ numStr p ++
           (" × ") ++ ("2") ++ (" = ") ++ numStr (a + 2 * p)] ∧
      step_by_step numStr Kind.geometric a p n
          (calculate_geometric_sequence a p n) =
        [("a₁ = ") ++ numStr a,
         ("a") ++ ("2") ++ (" = ") ++ numStr a ++ (" × ") ++ numStr p ++
           ("^") ++ ("1") ++ (" = ") ++ numStr (a * p ^ 1),
         ("a") ++ ("3") ++ (" = ") ++ numStr a ++ (" × ") ++ numStr p ++
           ("^") ++ ("2") ++ (" = ") ++ numStr (a * p ^ 2)]) ∧
    (n < 3 → ∀ seq : List ℚ,
      step_by_step numStr Kind.arithmetic a p n seq = [] ∧
      step_by_step numStr Kind.geometric a p n seq = []) :=
  ⟨fun h => ⟨step_lines_arith numStr a p n h, step_lines_geo numStr a p n h⟩,
   fun h seq => ⟨step_lines_short numStr Kind.arithmetic a p n seq h,
     step_lines_short numStr Kind.geometric a p n seq h⟩⟩

theorem C6_step_explanations_witness :
    step_by_step numStr0 Kind.arithmetic 1 1 5
        (calculate_arithmetic_sequence 1 1 5) =
      [("a₁ = ") ++ numStr0 1,
       ("a") ++ ("2") ++ (" = ") ++ numStr0 1 ++ (" + ") ++ numStr0 1 ++
         (" × ") ++ ("1") ++ (" = ") ++ numStr0 (1 + 1 * 1),
       ("a") ++ ("3") ++ (" = ") ++ numStr0 1 ++ (" + ") ++ numStr0 1 ++
         (" × ") ++ ("2") ++ (" = ") ++ numStr0 (1 + 2 * 1)] :=
  ((C6_step_explanations numStr0 1 1 5).1 (by decide)).1

lemma twoDigits_spec : ∀ f : ℕ, f < 100 →
    (twoDigits f).length = 2 ∧ (twoDigits f).data.all Char.isDigit = true := by
  decide

lemma format2f_two_decimals (q : ℚ) :
    ∃ pre post : String, format2f q = pre ++ (".") ++ post ∧
      post.length = 2 ∧ post.data.all Char.isDigit = true := by
  refine ⟨(if roundHalfEven (q * 100) < 0 then ("-") else ("")) ++
      Nat.repr ((roundHalfEven (q * 100)).natAbs / 100),
    twoDigits ((roundHalfEven (q * 100)).natAbs % 100), rfl, ?_, ?_⟩
  · exact (twoDigits_spec _ (Nat.mod_lt _ (by norm_num))).1
  · exact (twoDigits_spec _ (Nat.mod_lt _ (by norm_num))).2

/-- C3: for every valid request the displayed sum is
termCount/2 · (firstTerm + lastTerm) for arithmetic sequences, with
lastTerm the final generated term firstTerm + (termCount−1)·step; for
geometric sequences it is firstTerm·termCount when step = 1 and
firstTerm·(step^termCount − 1)/(step − 1) otherwise; and the rendered sum
string has exactly two (digit) characters after the decimal point. -/
theorem C3_sum_and_rendering (numStr : ℚ → String) (k : Kind) (a p : ℚ)
    (n : ℤ) (h1 : 1 ≤ n) (h2 : n ≤ 1000)
    (h3 : ¬(k = Kind.geometric ∧ p = 0)) :
    (k = Kind.arithmetic →
      (okOutput (runCalculation numStr k a p n)).sequence_sum =
        ((n : ℚ) / 2) *
          (a + (okOutput (runCalculation numStr k a p n)).last_term) ∧
      (okOutput (runCalculation numStr k a p n)).last_term =
        a + ((n : ℚ) - 1) * p) ∧
    (k = Kind.geometric → p = 1 →
      (okOutput (runCalculation numStr k a p n)).sequence_sum =
        a * (n : ℚ)) ∧
    (k = Kind.geometric → p ≠ 1 →
      (okOutput (runCalculation numStr k a p n)).sequence_sum =
        a * (p ^ n.toNat - 1) / (p - 1)) ∧
    (∃ pre post : String,
      (okOutput (runCalculation numStr k a p n)).sum_str =
        pre ++ (".") ++ post ∧
      post.length = 2 ∧ post.data.all Char.isDigit = true) := by
  rw [okOutput_valid numStr k a p n h1 h2 h3]
  refine ⟨fun hk => ?_, fun hk hp => ?_, fun hk hp => ?_, ?_⟩
  · subst hk
    refine ⟨rfl, ?_⟩
    show (calculate_arithmetic_sequence a p n).getLastD 0 =
      a + ((n : ℚ) - 1) * p
    exact arith_getLastD a p n h1
  · subst hk
    show sequence_sum_of Kind.geometric a p n
      (mainSequence Kind.geometric a p n) = a * (n : ℚ)
    simp only [sequence_sum_of]
    rw [if_pos hp]
  · subst hk
    show sequence_sum_of Kind.geometric a p n
      (mainSequence Kind.geometric a p n) = a * (p ^ n.toNat - 1) / (p - 1)
    simp only [sequence_sum_of]
    rw [if_neg hp]
  · exact format2f_two_decimals _

theorem C3_sum_and_rendering_witness :
    (okOutput (runCalculation numStr0 Kind.arithmetic 1 1 10)).sequence_sum =
      (((10 : ℤ) : ℚ) / 2) *
        (1 + (okOutput (runCalculation numStr0 Kind.arithmetic 1 1 10)).last_term) ∧
    (okOutput (runCalculation numStr0 Kind.arithmetic 1 1 10)).last_term =
      1 + (((10 : ℤ) : ℚ) - 1) * 1 :=
  (C3_sum_and_rendering numStr0 Kind.arithmetic 1 1 10 (by decide) (by decide)
    (fun h => nomatch h.1)).1 rfl
